import Mathlib

/-!
Verification of the competitive question-response grading engine
(`cs_battles/models.py`, `cs_questions/models.py`) against its design
specification.  Django models are embedded as Lean structures; querysets
become lists in insertion order; timestamps become integers; Python
floats become rationals; raised exceptions become `Option`/`Except`
error values.
-/

namespace CodeWinner

/-! ## Battle subsystem (`src/cs_battles/models.py`) -/

/-- A response item produced by submitting code (`CodingIoResponseItem`):
only its creation timestamp and the submitted source text matter here. -/
structure ResponseItem where
  created : Int
  source : String
deriving DecidableEq, Repr

/-- `BattleResponse` model: one participation of one challenger.
`response` is the primary key of the underlying one-to-one `Response`;
`battle` is the foreign key of the owning `Battle`.  `source` is the
submitted source text reached as `battle.source` by `winner_length`
(the attribute is resolved through the underlying response). -/
structure BattleResponse where
  response : Nat
  battle : Nat
  time_begin : Int
  time_end : Option Int
  source : String
deriving DecidableEq, Repr

inductive BattleType where
  | length
  | time
deriving DecidableEq, Repr

/-- `Battle` model.  `battles` is the reverse relation
`self.battles.all()` (the battle's `BattleResponse`s in insertion
order); `invitations_user` the many-to-many user set (primary keys). -/
structure Battle where
  battles : List BattleResponse
  battle_winner : Option BattleResponse
  invitations_user : List Nat
  type : BattleType
deriving DecidableEq, Repr

/-- Python's `min(iterable, key=key)`: fold keeping the current best and
replacing it only on a strictly smaller key, so ties keep the earlier
element; `none` models the `ValueError` on an empty iterable. -/
def pymin {α β : Type} [LinearOrder β] (key : α → β) : List α → Option α
  | [] => none
  | x :: xs => some (xs.foldl (fun best y => if key y < key best then y else best) x)

/-- `QuerySet.first()`. -/
def qfirst {α : Type} : List α → Option α
  | [] => none
  | x :: _ => some x

/-- `Battle.is_active`: `self.battles.first() and not self.battle_winner
and not self.invitations_user.all()` read as a truth value. -/
def Battle.is_active (b : Battle) : Bool :=
  (qfirst b.battles).isSome && b.battle_winner.isNone && b.invitations_user.isEmpty

/-- `Battle.winner_length`: `min(self.battles.all(), key=source_length)`
with `source_length(battle) = len(battle.source)`. -/
def Battle.winner_length (b : Battle) : Option BattleResponse :=
  pymin (fun br => br.source.length) b.battles

/-- `Battle.winner_time`: `min(self.battles.all(), key=source_time)` with
`source_time(battle) = battle.time_end - battle.time_end`.  When some
response has no `time_end`, evaluating the key raises `TypeError`
(`None - None`), modelled as `none`; otherwise the key is `t - t = 0`
for every element. -/
def Battle.winner_time (b : Battle) : Option BattleResponse :=
  if b.battles.all (fun br => br.time_end.isSome) then
    pymin (fun br => br.time_end.getD 0 - br.time_end.getD 0) b.battles
  else none

/-- `getattr(self, 'winner_' + self.type)()`. -/
def Battle.winner_dispatch (b : Battle) : Option BattleResponse :=
  match b.type with
  | BattleType.length => b.winner_length
  | BattleType.time => b.winner_time

/-- Result of `Battle.determine_winner`: the battle row after the call,
the returned value, and whether `save()` was executed. -/
structure DWResult where
  battle : Battle
  winner : Option BattleResponse
  wrote : Bool
deriving DecidableEq, Repr

/-- `Battle.determine_winner`: when active, compute the winner for the
battle's type, store it and `save()`; otherwise return the stored
`battle_winner` untouched.  `none` models an exception escaping from the
winner computation (no assignment, no save). -/
def Battle.determine_winner (b : Battle) : Option DWResult :=
  if b.is_active then
    match b.winner_dispatch with
    | none => none
    | some w => some ⟨{ b with battle_winner := some w }, some w, true⟩
  else some ⟨b, b.battle_winner, false⟩

/-- `BattleResponse.update`: `self.time_end = response_item.created;
self.save()`. -/
def BattleResponse.update (br : BattleResponse) (item : ResponseItem) : BattleResponse :=
  { br with time_end := some item.created }

/-! ## Claim C5: `is_active` -/

/-- C5: `Battle.is_active` holds iff the battle has at least one
`BattleResponse`, `battle_winner` is unset, and the invitation set is
empty. -/
theorem is_active_iff (b : Battle) :
    b.is_active = true ↔
      b.battles ≠ [] ∧ b.battle_winner = none ∧ b.invitations_user = [] := by
  unfold Battle.is_active qfirst
  cases b.battles with
  | nil =>
      simp
  | cons x xs =>
      cases hw : b.battle_winner with
      | none => simp [List.isEmpty_iff]
      | some w => simp

/-! ## Claim C8: `BattleResponse.update` frame -/

/-- C8: `update` records `time_end = response_item.created` and leaves
`time_begin`, `battle`, `response` and the source text unchanged. -/
theorem update_frame (br : BattleResponse) (item : ResponseItem) :
    (br.update item).time_end = some item.created ∧
    (br.update item).time_begin = br.time_begin ∧
    (br.update item).battle = br.battle ∧
    (br.update item).response = br.response ∧
    (br.update item).source = br.source := by
  simp [BattleResponse.update]

/-! ## Claim C2: `determine_winner` idempotence -/

/-- C2: when `battle_winner` is already set, `determine_winner` returns
the stored winner with no write and without recomputation; hence calling
it twice yields the same winner both times and the second call performs
no write. -/
theorem determine_winner_idempotent (b : Battle) (w : BattleResponse)
    (h : b.battle_winner = some w) :
    b.determine_winner = some ⟨b, some w, false⟩ ∧
    ∀ b' r wr, b.determine_winner = some ⟨b', r, wr⟩ →
      b'.determine_winner = some ⟨b', r, false⟩ := by
  have hact : b.is_active = false := by
    unfold Battle.is_active
    simp [h]
  constructor
  · unfold Battle.determine_winner
    simp [hact, h]
  · intro b' r wr hcall
    unfold Battle.determine_winner at hcall
    simp [hact] at hcall
    obtain ⟨hb, hr, _⟩ := hcall
    subst hb
    unfold Battle.determine_winner
    simp [hact, hr]

/-- Witness for C2 on a concrete battle whose winner is stored. -/
theorem determine_winner_idempotent_witness :
    ({ battles := [⟨1, 1, 0, some 5, "x"⟩],
       battle_winner := some ⟨1, 1, 0, some 5, "x"⟩,
       invitations_user := [],
       type := BattleType.length } : Battle).battle_winner
        = some ⟨1, 1, 0, some 5, "x"⟩ ∧
    ({ battles := [⟨1, 1, 0, some 5, "x"⟩],
       battle_winner := some ⟨1, 1, 0, some 5, "x"⟩,
       invitations_user := [],
       type := BattleType.length } : Battle).determine_winner
      = some ⟨{ battles := [⟨1, 1, 0, some 5, "x"⟩],
                battle_winner := some ⟨1, 1, 0, some 5, "x"⟩,
                invitations_user := [],
                type := BattleType.length }, some ⟨1, 1, 0, some 5, "x"⟩, false⟩ :=
  ⟨rfl, (determine_winner_idempotent _ _ rfl).1⟩

/-! ## Claim C1: `winner_time` -/

/-- First response of the C1 battle: elapsed time 123 tenths of a
second (12.3 s). -/
def r1C1 : BattleResponse := ⟨1, 1, 0, some 123, "aaaa"⟩

/-- Second response of the C1 battle: elapsed time 98 tenths of a
second (9.8 s), the smaller elapsed time. -/
def r2C1 : BattleResponse := ⟨2, 1, 0, some 98, "bbbb"⟩

/-- The C1 battle: type `time`, both responses have a `time_end`. -/
def bC1 : Battle :=
  { battles := [r1C1, r2C1], battle_winner := none,
    invitations_user := [], type := BattleType.time }

/-- C1 fails on the code: `winner_time` compares
`time_end - time_end` (constantly zero) instead of
`time_end - time_begin`, so it returns the first response even though
the second has the strictly smaller elapsed time. -/
theorem winner_time_bug :
    bC1.winner_time = some r1C1 ∧
    r1C1 ≠ r2C1 ∧
    r2C1.time_end.getD 0 - r2C1.time_begin <
      r1C1.time_end.getD 0 - r1C1.time_begin := by
  refine ⟨?_, by decide, by decide⟩
  decide

/-! ## Question subsystem (`src/cs_questions/models.py`) -/

/-- `NumericResponse`: the submitted value and the grade written by
`NumericQuestion.grade`.  Floats are modelled as rationals. -/
structure NumericResponse where
  value : ℚ
  grade : ℚ
deriving DecidableEq

/-- `NumericQuestion`: answer and tolerance. -/
structure NumericQuestion where
  answer : ℚ
  tolerance : ℚ
deriving DecidableEq

/-- `NumericQuestion.start`: `self.answer - abs(self.tolerance)`. -/
def NumericQuestion.start (q : NumericQuestion) : ℚ :=
  q.answer - |q.tolerance|

/-- `NumericQuestion.end`: `self.answer + abs(self.tolerance)`
(`end` is reserved in Lean). -/
def NumericQuestion.stop (q : NumericQuestion) : ℚ :=
  q.answer + |q.tolerance|

/-- `NumericQuestion.range`: `(self.start, self.end)`. -/
def NumericQuestion.range (q : NumericQuestion) : ℚ × ℚ :=
  (q.start, q.stop)

/-- `NumericQuestion.grade`: `x, y = self.range; response.grade = 100 if
x <= response.value <= y else 0; response.save()`. -/
def NumericQuestion.grade (q : NumericQuestion) (r : NumericResponse) : NumericResponse :=
  { r with grade := if q.range.1 ≤ r.value ∧ r.value ≤ q.range.2 then 100 else 0 }

/-! ## Claim C6: numeric grading -/

/-- C6: for a nonnegative tolerance, `NumericQuestion.grade` marks a
response correct (grade 100) iff `|value - answer| ≤ tolerance`. -/
theorem numeric_grade_iff (q : NumericQuestion) (r : NumericResponse)
    (h : 0 ≤ q.tolerance) :
    ((q.grade r).grade = 100 ↔ |r.value - q.answer| ≤ q.tolerance) := by
  have hg : (q.grade r).grade =
      if q.answer - q.tolerance ≤ r.value ∧ r.value ≤ q.answer + q.tolerance
      then (100 : ℚ) else 0 := by
    unfold NumericQuestion.grade NumericQuestion.range NumericQuestion.start NumericQuestion.stop
    rw [abs_of_nonneg h]
  rw [hg, abs_sub_le_iff]
  by_cases hc : q.answer - q.tolerance ≤ r.value ∧ r.value ≤ q.answer + q.tolerance
  · rw [if_pos hc]
    exact ⟨fun _ => ⟨by linarith [hc.2], by linarith [hc.1]⟩, fun _ => rfl⟩
  · rw [if_neg hc]
    constructor
    · intro habs
      norm_num at habs
    · intro hcon
      exact absurd ⟨by linarith [hcon.2], by linarith [hcon.1]⟩ hc

/-- Witness for C6: answer 10, tolerance 0.5; value 10.4 is graded 100
(and value 10.6 is graded 0, the spec scenario's other half). -/
theorem numeric_grade_iff_witness :
    (0 : ℚ) ≤ (⟨10, 1/2⟩ : NumericQuestion).tolerance ∧
    (((⟨10, 1/2⟩ : NumericQuestion).grade ⟨52/5, 0⟩).grade = 100 ↔
      |(52/5 : ℚ) - 10| ≤ (1/2 : ℚ)) ∧
    ((⟨10, 1/2⟩ : NumericQuestion).grade ⟨53/5, 0⟩).grade = 0 := by
  refine ⟨by norm_num, ?_, ?_⟩
  · exact numeric_grade_iff ⟨10, 1/2⟩ ⟨52/5, 0⟩ (by norm_num)
  · unfold NumericQuestion.grade NumericQuestion.range NumericQuestion.start NumericQuestion.stop
    have habs : |(1/2 : ℚ)| = 1/2 := by norm_num
    rw [habs]
    norm_num

/-! ## Claim C7: `QuestionResponse.question_base` setter -/

/-- A base `Question` row, identified by its primary key. -/
structure QuestionRow where
  pk : Nat
deriving DecidableEq, Repr

/-- A `QuestionActivity` row: `question_base` is its foreign key to the
question. -/
structure ActivityRow where
  question_base : QuestionRow
deriving DecidableEq, Repr

/-- The binding state of a `QuestionResponse`: the optional `activity`
back-reference and the optional `question_for_unbound` foreign key. -/
structure QuestionResponseRow where
  activity : Option ActivityRow
  question_for_unbound : Option QuestionRow
deriving DecidableEq, Repr

/-- The error raised by the `question_base` setter on an activity-bound
response (the spec's `InvalidBindingError`; the source raises
`AttributeError`). -/
inductive InvalidBindingError where
  | rebind
deriving DecidableEq, Repr

/-- `QuestionResponse.question_base` getter:
`self.question_for_unbound or self.activity.questionactivity.question_base`
(a question object is always truthy; `none` models the `AttributeError`
when both references are unset). -/
def QuestionResponseRow.question_base (r : QuestionResponseRow) : Option QuestionRow :=
  match r.question_for_unbound with
  | some q => some q
  | none => r.activity.map (fun a => a.question_base)

/-- `QuestionResponse.question_base` setter: when `activity` is unset,
store the value in `question_for_unbound`; when bound and the value's pk
differs from the current `question_base`'s pk, raise; otherwise do
nothing. -/
def QuestionResponseRow.set_question_base (r : QuestionResponseRow) (v : QuestionRow) :
    Except InvalidBindingError QuestionResponseRow :=
  match r.activity with
  | none => Except.ok { r with question_for_unbound := some v }
  | some a =>
      if (r.question_for_unbound.getD a.question_base).pk ≠ v.pk then
        Except.error InvalidBindingError.rebind
      else
        Except.ok r

/-- C7: on a response bound to an activity (so `question_for_unbound` is
unset, as the binding invariant requires), setting `question_base` to a
question whose pk differs from the activity's question fails with
`InvalidBindingError` and leaves the row unchanged; on an unbound
response the value is stored in `question_for_unbound`. -/
theorem set_question_base_spec (r : QuestionResponseRow) (v : QuestionRow) :
    (∀ a, r.activity = some a → r.question_for_unbound = none →
      a.question_base.pk ≠ v.pk →
      r.set_question_base v = Except.error InvalidBindingError.rebind) ∧
    (r.activity = none →
      r.set_question_base v = Except.ok { r with question_for_unbound := some v }) := by
  constructor
  · intro a ha hu hne
    unfold QuestionResponseRow.set_question_base
    rw [ha]
    simp [hu, hne]
  · intro ha
    unfold QuestionResponseRow.set_question_base
    rw [ha]

/-- Witness for C7: a bound response rejects a different question; an
unbound response accepts one. -/
theorem set_question_base_spec_witness :
    (⟨some ⟨⟨1⟩⟩, none⟩ : QuestionResponseRow).set_question_base ⟨2⟩
        = Except.error InvalidBindingError.rebind ∧
    (⟨none, none⟩ : QuestionResponseRow).set_question_base ⟨2⟩
        = Except.ok ⟨none, some ⟨2⟩⟩ :=
  ⟨(set_question_base_spec ⟨some ⟨⟨1⟩⟩, none⟩ ⟨2⟩).1 ⟨⟨1⟩⟩ rfl rfl (by decide),
   (set_question_base_spec ⟨none, none⟩ ⟨2⟩).2 rfl⟩

/-! ## Claim C10: `StringMatchQuestion.grade` -/

/-- A textual response: only `value` matters to grading. -/
structure TextResponse where
  value : String
deriving DecidableEq, Repr

/-- The `Feedback` object built by the default `Question.grade` as
`self.feedback_cls(response, self.answer == response.value)`. -/
structure Feedback where
  response : TextResponse
  is_correct : Bool
deriving DecidableEq, Repr

/-- `StringMatchQuestion`: stored answer and the `is_regex` flag. -/
structure StringMatchQuestion where
  answer : String
  is_regex : Bool
deriving DecidableEq, Repr

/-- Default `Question.grade`: `return self.feedback_cls(response,
self.answer == response.value)`. -/
def default_grade (answer : String) (r : TextResponse) : Feedback :=
  ⟨r, answer == r.value⟩

/-- `StringMatchQuestion.grade`: when `is_regex`, the body only binds
`value = response.value` and falls off the end (Python returns `None`);
otherwise it delegates to `super().grade(response)`. -/
def StringMatchQuestion.grade (q : StringMatchQuestion) (r : TextResponse) :
    Option Feedback :=
  if q.is_regex then none
  else some (default_grade q.answer r)

/-- C10: with `is_regex` set, `grade` returns `None` and produces no
`Feedback`; with `is_regex` unset it delegates to the default
exact-match comparison of the stored answer against `response.value`. -/
theorem string_match_grade_spec (q : StringMatchQuestion) (r : TextResponse) :
    (q.is_regex = true → q.grade r = none) ∧
    (q.is_regex = false → q.grade r = some ⟨r, q.answer == r.value⟩) := by
  constructor
  · intro h
    unfold StringMatchQuestion.grade
    rw [h]
    simp
  · intro h
    unfold StringMatchQuestion.grade default_grade
    rw [h]
    simp

/-- Witness for C10 on concrete questions and a concrete response. -/
theorem string_match_grade_spec_witness :
    (⟨"abc", true⟩ : StringMatchQuestion).grade ⟨"abc"⟩ = none ∧
    (⟨"abc", false⟩ : StringMatchQuestion).grade ⟨"abd"⟩
      = some ⟨⟨"abd"⟩, ("abc" == "abd")⟩ :=
  ⟨(string_match_grade_spec ⟨"abc", true⟩ ⟨"abc"⟩).1 rfl,
   (string_match_grade_spec ⟨"abc", false⟩ ⟨"abd"⟩).2 rfl⟩

/-! ## `pymin` returns the first element attaining the minimal key -/

/-- Python's `min` with a key function returns the first element of the
list whose key is less than or equal to every key in the list. -/
theorem pymin_eq_find_min {α β : Type} [LinearOrder β] (key : α → β) :
    ∀ (xs : List α) (x : α),
      pymin key (x :: xs)
        = (x :: xs).find? (fun z => (x :: xs).all (fun w => decide (key z ≤ key w))) := by
  intro xs
  induction xs with
  | nil =>
      intro x
      simp [pymin, List.find?]
  | cons y ys ih =>
      intro x
      by_cases hyx : key y < key x
      · have hfold : pymin key (x :: y :: ys) = pymin key (y :: ys) := by
          simp [pymin, hyx]
        rw [hfold, ih y]
        have hpred : (fun z => (y :: ys).all (fun w => decide (key z ≤ key w)))
            = (fun z => (x :: y :: ys).all (fun w => decide (key z ≤ key w))) := by
          funext z
          simp only [List.all_cons]
          by_cases hzy : key z ≤ key y
          · have hzx : key z ≤ key x := le_of_lt (lt_of_le_of_lt hzy hyx)
            simp [hzy, hzx]
          · simp [hzy]
        rw [hpred]
        have hpx : ¬ ((x :: y :: ys).all (fun w => decide (key x ≤ key w)) = true) := by
          simp only [List.all_cons]
          have hxy : ¬ key x ≤ key y := not_le.mpr hyx
          simp [hxy]
        conv_rhs => rw [List.find?_cons_of_neg _ (by simpa using hpx)]
      · have hxy : key x ≤ key y := le_of_not_lt hyx
        have hfold : pymin key (x :: y :: ys) = pymin key (x :: ys) := by
          simp [pymin, hyx]
        rw [hfold, ih x]
        have hpred : (fun z => (x :: ys).all (fun w => decide (key z ≤ key w)))
            = (fun z => (x :: y :: ys).all (fun w => decide (key z ≤ key w))) := by
          funext z
          simp only [List.all_cons]
          by_cases hzx : key z ≤ key x
          · have hzy : key z ≤ key y := le_trans hzx hxy
            simp [hzx, hzy]
          · simp [hzx]
        rw [hpred]
        by_cases hqx : ((x :: y :: ys).all (fun w => decide (key x ≤ key w)) = true)
        · rw [List.find?_cons_of_pos _ (by simpa using hqx),
            List.find?_cons_of_pos _ (by simpa using hqx)]
        · have hys : ¬ (ys.all (fun w => decide (key x ≤ key w)) = true) := by
            intro hall
            apply hqx
            simp only [List.all_cons]
            simp [le_refl, hxy, hall]
          obtain ⟨w, hw, hwlt⟩ : ∃ w ∈ ys, ¬ key x ≤ key w := by
            simpa using hys
          have hqy : ¬ ((x :: y :: ys).all (fun v => decide (key y ≤ key v)) = true) := by
            intro hall
            simp only [List.all_cons, Bool.and_eq_true, List.all_eq_true] at hall
            exact hwlt (le_trans hxy (by simpa using hall.2.2 w hw))
          rw [List.find?_cons_of_neg _ (by simpa using hqx),
            List.find?_cons_of_neg _ (by simpa using hqx),
            List.find?_cons_of_neg _ (by simpa using hqy)]

/-! ## Claim C3: `winner_length` -/

/-- C3: on a battle of type `length` with at least one response,
`winner_length` returns the response whose source text has minimal
character length, the first in insertion order among ties (it equals
`find?` of the minimality predicate); on an active battle,
`determine_winner` stores and returns that same response. -/
theorem winner_length_spec (b : Battle) (hty : b.type = BattleType.length)
    (hne : b.battles ≠ []) :
    ∃ w, b.winner_length = some w ∧
      w ∈ b.battles ∧
      (∀ y ∈ b.battles, w.source.length ≤ y.source.length) ∧
      b.battles.find?
          (fun z => b.battles.all (fun y => decide (z.source.length ≤ y.source.length)))
        = some w ∧
      (b.is_active = true →
        b.determine_winner = some ⟨{ b with battle_winner := some w }, some w, true⟩) := by
  obtain ⟨x, xs, hb⟩ : ∃ x xs, b.battles = x :: xs := by
    cases hL : b.battles with
    | nil => exact absurd hL hne
    | cons x xs => exact ⟨x, xs, rfl⟩
  have hfind : b.winner_length
      = b.battles.find?
          (fun z => b.battles.all (fun y => decide (z.source.length ≤ y.source.length))) := by
    unfold Battle.winner_length
    rw [hb]
    exact pymin_eq_find_min (fun br => br.source.length) xs x
  obtain ⟨w, hw⟩ : ∃ w, b.winner_length = some w := by
    unfold Battle.winner_length pymin
    rw [hb]
    exact ⟨_, rfl⟩
  have hfw : b.battles.find?
      (fun z => b.battles.all (fun y => decide (z.source.length ≤ y.source.length)))
      = some w := hfind ▸ hw
  refine ⟨w, hw, List.mem_of_find?_eq_some hfw, ?_, hfw, ?_⟩
  · intro y hy
    have hp := List.find?_some hfw
    simp only [List.all_eq_true, decide_eq_true_eq] at hp
    exact hp y hy
  · intro hact
    unfold Battle.determine_winner Battle.winner_dispatch
    rw [hact, hty]
    simp only [if_true]
    rw [hw]

/-- Witness for C3: a length battle with sources of lengths 3, 1, 1 —
the winner is the first length-1 response. -/
theorem winner_length_spec_witness :
    ({ battles := [⟨1, 1, 0, none, "aaa"⟩, ⟨2, 1, 0, none, "b"⟩, ⟨3, 1, 0, none, "c"⟩],
       battle_winner := none, invitations_user := [],
       type := BattleType.length } : Battle).type = BattleType.length ∧
    ({ battles := [⟨1, 1, 0, none, "aaa"⟩, ⟨2, 1, 0, none, "b"⟩, ⟨3, 1, 0, none, "c"⟩],
       battle_winner := none, invitations_user := [],
       type := BattleType.length } : Battle).battles ≠ [] ∧
    ∃ w, ({ battles := [⟨1, 1, 0, none, "aaa"⟩, ⟨2, 1, 0, none, "b"⟩, ⟨3, 1, 0, none, "c"⟩],
            battle_winner := none, invitations_user := [],
            type := BattleType.length } : Battle).winner_length = some w ∧
      w = ⟨2, 1, 0, none, "b"⟩ :=
  ⟨rfl, by decide, by
    obtain ⟨w, hw, -, -, hfind, -⟩ :=
      winner_length_spec
        { battles := [⟨1, 1, 0, none, "aaa"⟩, ⟨2, 1, 0, none, "b"⟩, ⟨3, 1, 0, none, "c"⟩],
          battle_winner := none, invitations_user := [],
          type := BattleType.length } rfl (by decide)
    refine ⟨w, hw, ?_⟩
    have : some w = some (⟨2, 1, 0, none, "b"⟩ : BattleResponse) := by
      rw [← hfind]
      decide
    exact Option.some.inj this.symm ▸ rfl⟩

/-! ## Claim C4: `submit_code` admission (spec-modelled)

The implementation of `submit_code`, `limit_submitions` and the
`give_up` flag is absent from the source tree; only
`cs_battles/test_models.py` and the spec reference them. -/

/-- Modelled from the spec: the battle-side admission state used by
`submit_code` — `limit_submitions` (the per-participant submission cap,
absent from `cs_battles/models.py`; referenced by the tests) and the
stored winner's primary key. -/
structure BattleAdmission where
  limit_submitions : Int
  battle_winner : Option Nat
deriving DecidableEq, Repr

/-- Modelled from the spec: the participant-side tracker state for
`submit_code` — the number of successful submissions already made, the
`give_up` flag, the recorded `time_end` and the created response items
(all absent from `cs_battles/models.py`; referenced by the tests). -/
structure Tracker where
  count : Nat
  give_up : Bool
  time_end : Option Int
  items : List ResponseItem
deriving DecidableEq, Repr

/-- Modelled from the spec: the `SubmissionRejected` error. -/
inductive SubmissionRejected where
  | rejected
deriving DecidableEq, Repr

/-- Modelled from the spec: `submit_code(source)` (absent from
`cs_battles/models.py`) — valid only when `limit_submitions` is strictly
positive, the battle has no winner yet, the participant has not given up
and has not reached the cap; otherwise it fails with
`SubmissionRejected` leaving the tracker unchanged (no new Response).
On success it creates a new response item from the code runner, records
`time_end` as the item's creation timestamp, and returns the item. -/
def submit_code (b : BattleAdmission) (p : Tracker) (source : String) (now : Int) :
    Tracker × Except SubmissionRejected ResponseItem :=
  if b.limit_submitions ≤ 0 then (p, Except.error SubmissionRejected.rejected)
  else if b.battle_winner.isSome then (p, Except.error SubmissionRejected.rejected)
  else if p.give_up then (p, Except.error SubmissionRejected.rejected)
  else if (p.count : Int) ≥ b.limit_submitions then
    (p, Except.error SubmissionRejected.rejected)
  else
    ({ p with
        count := p.count + 1
        time_end := some now
        items := p.items ++ [⟨now, source⟩] },
     Except.ok ⟨now, source⟩)

/-- Modelled from the spec: the tracker after `k` submission attempts in
a row. -/
def submit_iter (b : BattleAdmission) (p : Tracker) (source : String) (now : Int) :
    Nat → Tracker
  | 0 => p
  | k + 1 => (submit_code b (submit_iter b p source now k) source now).1

/-- C4: with cap `N > 0`, no winner and no give-up, each of the first
`N` submission attempts from a fresh participant succeeds and the
`(N+1)`-th fails with `SubmissionRejected`, leaving the tracker (hence
its response items) unchanged; and for every battle with a zero or
negative cap, and every battle with a stored winner, every attempt by
any tracker fails with `SubmissionRejected` and creates nothing. -/
theorem submit_code_spec (b : BattleAdmission) (p : Tracker) (s : String) (t : Int)
    (N : Nat) (hN : b.limit_submitions = (N : Int)) (h0 : 0 < N)
    (hw : b.battle_winner = none) (hg : p.give_up = false) (hc : p.count = 0) :
    (∀ k : Nat, k < N →
      (submit_code b (submit_iter b p s t k) s t).2 = Except.ok ⟨t, s⟩ ∧
      (submit_iter b p s t (k + 1)).count = k + 1) ∧
    submit_code b (submit_iter b p s t N) s t
      = (submit_iter b p s t N, Except.error SubmissionRejected.rejected) ∧
    (∀ (q : Tracker) (c : BattleAdmission), c.limit_submitions ≤ 0 →
      submit_code c q s t = (q, Except.error SubmissionRejected.rejected)) ∧
    (∀ (q : Tracker) (c : BattleAdmission), c.battle_winner.isSome = true →
      submit_code c q s t = (q, Except.error SubmissionRejected.rejected)) := by
  have hstate : ∀ k : Nat, k ≤ N →
      (submit_iter b p s t k).count = k ∧
      (submit_iter b p s t k).give_up = false := by
    intro k
    induction k with
    | zero => intro _; exact ⟨hc, hg⟩
    | succ j ihj =>
        intro hjN
        have hj := ihj (Nat.le_of_succ_le hjN)
        have hlt : ((submit_iter b p s t j).count : Int) < b.limit_submitions := by
          rw [hj.1, hN]
          exact_mod_cast Nat.lt_of_succ_le hjN
        have hpos : ¬ b.limit_submitions ≤ 0 := by
          rw [hN]
          exact_mod_cast Nat.not_le.mpr h0
        unfold submit_iter submit_code
        rw [hw]
        simp only [hpos, hj.2, hj.1, if_false, Bool.false_eq_true, Option.isSome_none]
        have hlt' : ¬ b.limit_submitions ≤ (j : Int) := by
          rw [hN]
          exact not_le.mpr (by exact_mod_cast Nat.lt_of_succ_le hjN)
        simp [hlt']
  have hpos : ¬ b.limit_submitions ≤ 0 := by
    rw [hN]
    exact_mod_cast Nat.not_le.mpr h0
  refine ⟨?_, ?_, ?_, ?_⟩
  · intro k hkN
    have hk := hstate k (Nat.le_of_lt hkN)
    have hlt : ((submit_iter b p s t k).count : Int) < b.limit_submitions := by
      rw [hk.1, hN]
      exact_mod_cast hkN
    constructor
    · unfold submit_code
      rw [hw]
      simp [hpos, hk.2, not_le.mpr hlt]
    · have := (hstate (k + 1) (Nat.succ_le_of_lt hkN)).1
      exact this
  · have hNst := hstate N (le_refl N)
    have hge : ((submit_iter b p s t N).count : Int) ≥ b.limit_submitions := by
      rw [hNst.1, hN]
    unfold submit_code
    rw [hw]
    simp [hpos, hNst.2, hge]
  · intro q c hle
    unfold submit_code
    simp [hle]
  · intro q c hcw
    unfold submit_code
    by_cases hle : c.limit_submitions ≤ 0
    · simp [hle]
    · simp [hle, hcw]

/-- Witness for C4: cap 2, no winner, fresh participant — two successes
then a rejection; and concrete zero-cap, negative-cap and winner-set
battles on which every attempt rejects without creating anything. -/
theorem submit_code_spec_witness :
    (⟨2, none⟩ : BattleAdmission).limit_submitions = ((2 : Nat) : Int) ∧
    0 < 2 ∧
    (⟨2, none⟩ : BattleAdmission).battle_winner = none ∧
    (⟨0, false, none, []⟩ : Tracker).give_up = false ∧
    (⟨0, false, none, []⟩ : Tracker).count = 0 ∧
    ((∀ k : Nat, k < 2 →
      (submit_code ⟨2, none⟩ (submit_iter ⟨2, none⟩ ⟨0, false, none, []⟩ "src" 7 k) "src" 7).2
        = Except.ok ⟨7, "src"⟩ ∧
      (submit_iter ⟨2, none⟩ ⟨0, false, none, []⟩ "src" 7 (k + 1)).count = k + 1) ∧
    submit_code ⟨2, none⟩ (submit_iter ⟨2, none⟩ ⟨0, false, none, []⟩ "src" 7 2) "src" 7
      = (submit_iter ⟨2, none⟩ ⟨0, false, none, []⟩ "src" 7 2,
         Except.error SubmissionRejected.rejected) ∧
    (∀ (q : Tracker) (c : BattleAdmission), c.limit_submitions ≤ 0 →
      submit_code c q "src" 7 = (q, Except.error SubmissionRejected.rejected)) ∧
    (∀ (q : Tracker) (c : BattleAdmission), c.battle_winner.isSome = true →
      submit_code c q "src" 7 = (q, Except.error SubmissionRejected.rejected))) ∧
    submit_code ⟨0, none⟩ ⟨0, false, none, []⟩ "src" 7
      = (⟨0, false, none, []⟩, Except.error SubmissionRejected.rejected) ∧
    submit_code ⟨-3, none⟩ ⟨0, false, none, []⟩ "src" 7
      = (⟨0, false, none, []⟩, Except.error SubmissionRejected.rejected) ∧
    submit_code ⟨5, some 9⟩ ⟨0, false, none, []⟩ "src" 7
      = (⟨0, false, none, []⟩, Except.error SubmissionRejected.rejected) :=
  ⟨rfl, by decide, rfl, rfl, rfl,
   submit_code_spec ⟨2, none⟩ ⟨0, false, none, []⟩ "src" 7 2 rfl (by decide) rfl rfl rfl,
   (submit_code_spec ⟨2, none⟩ ⟨0, false, none, []⟩ "src" 7 2 rfl (by decide) rfl rfl
     rfl).2.2.1 ⟨0, false, none, []⟩ ⟨0, none⟩ (by decide),
   (submit_code_spec ⟨2, none⟩ ⟨0, false, none, []⟩ "src" 7 2 rfl (by decide) rfl rfl
     rfl).2.2.1 ⟨0, false, none, []⟩ ⟨-3, none⟩ (by decide),
   (submit_code_spec ⟨2, none⟩ ⟨0, false, none, []⟩ "src" 7 2 rfl (by decide) rfl rfl
     rfl).2.2.2 ⟨0, false, none, []⟩ ⟨5, some 9⟩ rfl⟩

end CodeWinner
